import Mathlib

/-!
Verification of the CloudFormation stack lifecycle orchestrator
(`cloudformation.py` of the aws-deployment-framework repository).

The Python module is shallowly embedded: pure string manipulation becomes
Lean functions, remote service interaction is modelled by an environment
record (`CfnEnv`) holding the responses the service would give, and each
stateful operation is a function producing the ordered list of service
calls it issues (`Action` trace) together with its result
(`Except CfnErr _` — `Except.error` models a raised Python exception).
-/

namespace ADF

/-- The apostrophe character (U+0027), used in service failure-reason
literals. -/
def apos : String := String.mk [Char.ofNat 39]

/-- Embeds `ADF_GLOBAL_IAM_STACK_NAME` module constant. -/
def ADF_GLOBAL_IAM_STACK_NAME : String := "adf-global-base-iam"

/-- Embeds `ADF_GLOBAL_BOOTSTRAP_STACK_NAME` module constant. -/
def ADF_GLOBAL_BOOTSTRAP_STACK_NAME : String := "adf-global-base-bootstrap"

/-- Embeds `ADF_GLOBAL_ADF_BUILD_STACK_NAME` module constant. -/
def ADF_GLOBAL_ADF_BUILD_STACK_NAME : String := "adf-global-base-adf-build"

/-- Substring containment: Python `sub in s`. -/
def containsSubstr (s sub : String) : Bool :=
  decide (sub.data <:+: s.data)

/-- Python `str.split` with a one-character separator, structurally over
the character list (the result is never empty; splitting the empty list
yields one empty group, the Python behaviour for splitting an empty
string). -/
def splitOnCharList (sep : Char) : List Char → List (List Char)
  | [] => [[]]
  | c :: cs =>
    match splitOnCharList sep cs with
    | [] => [[]]
    | g :: gs => if c = sep then [] :: g :: gs else (c :: g) :: gs

/-- Python `s.split(sep)` for a one-character separator. -/
def pySplit (s : String) (sep : Char) : List String :=
  (splitOnCharList sep s.data).map String.mk

/-- A character accepted by CloudFormation stack names: the regex
`CFN_UNACCEPTED_CHARS = [^-a-zA-Z0-9]` matches exactly the characters this
predicate rejects. -/
def isCfnAcceptedChar (c : Char) : Bool :=
  c == '-' || c.isAlphanum

/-- Embeds `CFN_UNACCEPTED_CHARS.sub("-", s)`: every unaccepted character is
replaced by a hyphen. -/
def cfnSubUnaccepted (s : String) : String :=
  String.mk (s.data.map (fun c => if isCfnAcceptedChar c then c else '-'))

/-- Embeds `StackProperties.clean_stack_status` class constant: the statuses from
which `_delete_stack_or_instruct_user` deletes automatically. -/
def clean_stack_status : List String := [
  "CREATE_FAILED",
  "CREATE_COMPLETE",
  "ROLLBACK_FAILED",
  "ROLLBACK_COMPLETE",
  "DELETE_FAILED",
  "UPDATE_IN_PROGRESS",
  "UPDATE_COMPLETE_CLEANUP_IN_PROGRESS",
  "UPDATE_COMPLETE",
  "UPDATE_ROLLBACK_IN_PROGRESS",
  "UPDATE_ROLLBACK_FAILED",
  "UPDATE_ROLLBACK_COMPLETE_CLEANUP_IN_PROGRESS",
  "UPDATE_ROLLBACK_COMPLETE",
  "REVIEW_IN_PROGRESS"
]

/-- Embeds `StackProperties.clean_before_create_update_states` class constant. -/
def clean_before_create_update_states : List String := [
  "CREATE_FAILED",
  "ROLLBACK_FAILED",
  "ROLLBACK_COMPLETE",
  "DELETE_FAILED",
  "REVIEW_IN_PROGRESS"
]

/-- Embeds `StackProperties.in_progress_state_waiters` class constant (a dict,
embedded as an association list). -/
def in_progress_state_waiters : List (String × String) := [
  ("UPDATE_IN_PROGRESS", "stack_update_complete"),
  ("CREATE_IN_PROGRESS", "stack_create_complete"),
  ("UPDATE_ROLLBACK_IN_PROGRESS", "stack_rollback_complete"),
  ("UPDATE_ROLLBACK_COMPLETE_CLEANUP_IN_PROGRESS", "stack_rollback_complete"),
  ("DELETE_IN_PROGRESS", "stack_delete_complete"),
  ("REVIEW_IN_PROGRESS", "change_set_create_complete")
]

/-- Embeds `StackProperties.all_except_deleted_states` class constant. -/
def all_except_deleted_states : List String := [
  "CREATE_IN_PROGRESS",
  "CREATE_FAILED",
  "CREATE_COMPLETE",
  "ROLLBACK_IN_PROGRESS",
  "ROLLBACK_FAILED",
  "ROLLBACK_COMPLETE",
  "DELETE_IN_PROGRESS",
  "DELETE_FAILED",
  "UPDATE_IN_PROGRESS",
  "UPDATE_COMPLETE_CLEANUP_IN_PROGRESS",
  "UPDATE_COMPLETE",
  "UPDATE_FAILED",
  "UPDATE_ROLLBACK_IN_PROGRESS",
  "UPDATE_ROLLBACK_FAILED",
  "UPDATE_ROLLBACK_COMPLETE_CLEANUP_IN_PROGRESS",
  "UPDATE_ROLLBACK_COMPLETE",
  "REVIEW_IN_PROGRESS",
  "IMPORT_IN_PROGRESS",
  "IMPORT_COMPLETE",
  "IMPORT_ROLLBACK_IN_PROGRESS",
  "IMPORT_ROLLBACK_FAILED",
  "IMPORT_ROLLBACK_COMPLETE"
]

/-- The constructor arguments of `StackProperties` that its pure string
derivations depend on.  `stack_name_arg` is the optional `stack_name`
constructor parameter; `s3_key_path` the optional key path. -/
structure StackProperties where
  region : String
  deployment_account_region : String
  stack_name_arg : Option String
  s3_key_path : Option String
deriving Repr, DecidableEq

/-- Embeds `self.ou_name`: last `/`-separated segment of `s3_key_path` when the
path is truthy, `None` otherwise. -/
def ou_name (p : StackProperties) : Option String :=
  match p.s3_key_path with
  | some path =>
    if path = "" then none else some ((pySplit path '/').getLastD "")
  | none => none

/-- Embeds `StackProperties._get_geo_prefix`. -/
def _get_geo_prefix (p : StackProperties) : String :=
  if p.region = p.deployment_account_region then "global" else "regional"

/-- Embeds `StackProperties._get_stack_name`: suffix from `ou_name`, raw name
`adf-<geo>-base-<suffix>`, unaccepted characters substituted by `-`. -/
def _get_stack_name (p : StackProperties) : String :=
  let stack_suffix :=
    match ou_name p with
    | some ou => if ou = "deployment" ∨ ou = "adf-build" then ou else "bootstrap"
    | none => "bootstrap"
  cfnSubUnaccepted ("adf-" ++ _get_geo_prefix p ++ "-base-" ++ stack_suffix)

/-- Embeds `self.stack_name = stack_name or self._get_stack_name()` (Python `or`:
a falsy — absent or empty — argument falls back to the derived name). -/
def stack_name (p : StackProperties) : String :=
  match p.stack_name_arg with
  | some s => if s = "" then _get_stack_name p else s
  | none => _get_stack_name p

/-- Embeds `StackProperties._get_valid_stack_names`. -/
def _get_valid_stack_names (p : StackProperties) : List String :=
  [ _get_stack_name p] ++
    (if p.region = p.deployment_account_region then
      [ADF_GLOBAL_IAM_STACK_NAME,
       ADF_GLOBAL_BOOTSTRAP_STACK_NAME,
       ADF_GLOBAL_ADF_BUILD_STACK_NAME]
    else [])

/-- Modelled from the spec (§4.1 `buildStackName`), for comparison with
the source derivation `_get_stack_name`: suffix is the last path segment
if that segment is "deployment" or "adf-build" and "bootstrap" otherwise;
the name is assembled as `adf-<geo>-base-<suffix>` with every character
outside `[A-Za-z0-9-]` replaced by `-`. -/
def specBuildStackName (region homeRegion path : String) : String :=
  let geo := if region = homeRegion then "global" else "regional"
  let lastSegment := (pySplit path '/').getLastD ""
  let suffix :=
    if lastSegment = "deployment" ∨ lastSegment = "adf-build"
    then lastSegment else "bootstrap"
  cfnSubUnaccepted ("adf-" ++ geo ++ "-base-" ++ suffix)

/-- Embeds `CloudFormation._get_change_set_type`, parameterized by the result of
the `get_stack_status` read it performs (`none` = stack missing). -/
def _get_change_set_type (status : Option String) : String :=
  match status with
  | none => "CREATE"
  | some s =>
    if clean_before_create_update_states.contains s then "CREATE" else "UPDATE"

/-- Embeds `CloudFormation._get_waiter_type`, parameterized by the status read. -/
def _get_waiter_type (status : Option String) : String :=
  if _get_change_set_type status = "UPDATE"
  then "stack_update_complete"
  else "stack_create_complete"

/-- The `describe_stacks` response observed by `_get_stack_status`:
either a successful response carrying the `StackStatus` of each listed
stack, or a service error with its error code and message. -/
inductive DescribeStacksResult where
  | ok (stackStatuses : List String)
  | err (code : String) (message : String)
deriving Repr, DecidableEq

/-- Embeds `CloudFormation._get_stack_status(name)`: first status of a non-empty
response; `None` on an empty response; `None` when the service raised a
`ValidationError`-coded error (stack does not exist); any other service
error re-raised (modelled as `Except.error` carrying the error code). -/
def _get_stack_status (r : DescribeStacksResult) : Except String (Option String) :=
  match r with
  | .ok statuses =>
    match statuses with
    | [] => .ok none
    | s :: _ => .ok (some s)
  | .err code _message =>
    if code = "ValidationError" then .ok none else .error code

/-- Embeds `CloudFormation._change_set_failed_due_to_empty(status, reason)`. -/
def _change_set_failed_due_to_empty (status reason : String) : Bool :=
  status == "FAILED"
    && (containsSubstr reason
          ("The submitted information didn" ++ apos ++ "t contain changes.")
        || containsSubstr reason "No updates are to be performed")

/-- Embeds `STACK_TERMINATION_PROTECTION == "True"` where the module constant is
`os.environ.get("TERMINATION_PROTECTION", False)`: only the exact literal
"True" enables protection. -/
def terminationProtectionEnabled (envVar : Option String) : Bool :=
  match envVar with
  | some v => v == "True"
  | none => false

/-- The remote service calls issued by the orchestrator, in program
order. -/
inductive Action where
  | validateTemplate (templateUrl : String)
  | createChangeSet (stackName changeSetName changeSetType : String)
  | describeChangeSet (stackName changeSetName : String)
  | deleteChangeSet (stackName changeSetName : String)
  | executeChangeSet (stackName changeSetName : String)
  | waitChangeSet (stackName changeSetName : String)
  | waitStack (waiterType stackName : String)
  | deleteStack (stackName : String)
  | manualRemoval (stackName stackStatus : String)
  | updateTerminationProtection (stackName : String) (enable : Bool)
deriving Repr, DecidableEq

/-- The exceptions the orchestrator can raise (Python exception classes). -/
inductive CfnErr where
  | invalidTemplate (templateUrl : String)
  | waiterError (status reason : String)
  | genericAccountConfigure
  | waitTimeout
  | clientError
deriving Repr, DecidableEq

/-- Constructor state of a `CloudFormation` instance. `template_url_arg`
is the optional `template_url` constructor argument; `parameters` the
optional parameter-list argument. -/
structure CloudFormation extends StackProperties where
  wait : Bool
  template_url_arg : Option String
  parameters : Option (List String)
  role_arn : Option String
deriving Repr, DecidableEq

/-- Embeds `self.stack_name` of a `CloudFormation` instance. -/
def cfStackName (c : CloudFormation) : String :=
  stack_name c.toStackProperties

/-- Responses of the remote service and collaborators, fixed up front:
the environment against which one orchestrator operation runs.
Polling reads that may be repeated are functions of the attempt index. -/
structure CfnEnv where
  /-- Embeds `get_stack_status` read performed by `_wait_if_in_progress`. -/
  initial_status : Option String
  /-- Embeds `get_stack_status` reads performed after any in-progress wait
  (waiter-type and change-set-type resolution, pre-create cleanup). -/
  stack_status : Option String
  /-- Whether a stack waiter awaited by `_wait_if_in_progress` fails. -/
  in_progress_wait_fails : Bool
  /-- Embeds `self.get_template_url()` result (`None` when no template exists). -/
  s3_template_url : Option String
  /-- Embeds `self.get_parameters()` result. -/
  s3_parameters : List String
  /-- Whether `validate_template` fails (raising `InvalidTemplateError`). -/
  validate_fails : Bool
  /-- Truthiness of the first `_describe_change_set()` in
  `_clean_up_when_required`. -/
  change_set_exists : Bool
  /-- Truthiness of the `_describe_change_set()` poll at attempt `k` of
  `_wait_until_change_set_is_deleted`. -/
  change_set_still_exists : Nat → Bool
  /-- Whether the `create_change_set` service call raises `ClientError`. -/
  create_call_fails : Bool
  /-- Outcome of `_wait_change_set`: `none` is success; `some (s, r)` is a
  `WaiterError` whose `last_response` has `Status = s`, `StatusReason = r`. -/
  change_set_wait_failure : Option (String × String)
  /-- Whether the post-execute stack waiter fails. -/
  execute_wait_fails : Bool
  /-- Whether `update_termination_protection` raises `ClientError`. -/
  termination_protection_update_fails : Bool
  /-- The `TERMINATION_PROTECTION` environment variable. -/
  termination_protection_var : Option String

/-- Embeds `delete_stack(stack_name, wait_override)` call trace: issue the
delete, then block on the delete waiter when `self.wait or wait_override`. -/
def delete_stack (c : CloudFormation) (stack_name_arg : String)
    (wait_override : Bool) : List Action :=
  [.deleteStack stack_name_arg] ++
    (if c.wait || wait_override
     then [.waitStack "stack_delete_complete" stack_name_arg]
     else [])

/-- Embeds `CloudFormation._delete_stack_or_instruct_user`. -/
def _delete_stack_or_instruct_user (c : CloudFormation)
    (stack_name_arg stack_status : String) (wait_override : Bool) :
    List Action :=
  if clean_stack_status.contains stack_status then
    delete_stack c stack_name_arg wait_override
  else
    [.manualRemoval stack_name_arg stack_status]

/-- Embeds `CloudFormation._delete_iam_stack_if_exists`, parameterized by the
status `_get_stack_status(ADF_GLOBAL_IAM_STACK_NAME)` returned. -/
def _delete_iam_stack_if_exists (c : CloudFormation)
    (iam_stack_status : Option String) : List Action :=
  match iam_stack_status with
  | some s =>
    if s = "" then []
    else _delete_stack_or_instruct_user c ADF_GLOBAL_IAM_STACK_NAME s true
  | none => []

/-- One record of the paginated `list_stacks` response.  A `ParentId` of
`""` models an absent / falsy parent (a top-level stack). -/
structure ListedStack where
  StackName : String
  StackStatus : String
  ParentId : String
deriving Repr, DecidableEq

/-- Embeds `re.search("adf-(global|regional)-base", name)` as a Boolean. -/
def matchesBaseStackPattern (name : String) : Bool :=
  containsSubstr name "adf-global-base"
    || containsSubstr name "adf-regional-base"

/-- The `for stack in paginator(...)` loop body of `_delete_base_stacks`,
threading the `deleted_any` and `bootstrap_stack_found` accumulators and
returning the emitted call trace together with their final values. -/
def _delete_base_stacks_loop (c : CloudFormation)
    (iam_stack_status : Option String)
    (wait_override deprecated_only : Bool) :
    List ListedStack → Bool → Bool → List Action × Bool × Bool
  | [], deleted_any, bootstrap_stack_found =>
    ([], deleted_any, bootstrap_stack_found)
  | st :: rest, deleted_any, bootstrap_stack_found =>
    if !matchesBaseStackPattern st.StackName then
      _delete_base_stacks_loop c iam_stack_status wait_override
        deprecated_only rest deleted_any bootstrap_stack_found
    else if st.ParentId != "" then
      -- Skip nested stacks
      _delete_base_stacks_loop c iam_stack_status wait_override
        deprecated_only rest deleted_any bootstrap_stack_found
    else if deleted_any && st.StackName == ADF_GLOBAL_IAM_STACK_NAME then
      -- We deleted the IAM stack already
      _delete_base_stacks_loop c iam_stack_status wait_override
        deprecated_only rest deleted_any bootstrap_stack_found
    else if !(!deprecated_only
        || !(( _get_valid_stack_names c.toStackProperties).contains
              st.StackName)) then
      -- should_be_deleted is False
      _delete_base_stacks_loop c iam_stack_status wait_override
        deprecated_only rest deleted_any
        (if st.StackName != ADF_GLOBAL_IAM_STACK_NAME then true
         else bootstrap_stack_found)
    else if st.StackStatus == "DELETE_COMPLETE" then
      _delete_base_stacks_loop c iam_stack_status wait_override
        deprecated_only rest deleted_any bootstrap_stack_found
    else
      let iamActs :=
        if !deleted_any
            && c.region == c.deployment_account_region
            && st.StackName != ADF_GLOBAL_IAM_STACK_NAME
        then _delete_iam_stack_if_exists c iam_stack_status
        else []
      let candActs :=
        _delete_stack_or_instruct_user c st.StackName st.StackStatus
          wait_override
      let r := _delete_base_stacks_loop c iam_stack_status wait_override
        deprecated_only rest true bootstrap_stack_found
      (iamActs ++ candActs ++ r.1, r.2)

/-- Embeds `CloudFormation._delete_base_stacks`, parameterized by the listed
stack family and the IAM stack status read. -/
def _delete_base_stacks (c : CloudFormation)
    (iam_stack_status : Option String) (stackList : List ListedStack)
    (wait_override deprecated_only : Bool) : List Action :=
  let r := _delete_base_stacks_loop c iam_stack_status wait_override
    deprecated_only stackList false false
  r.1 ++
    (if deprecated_only && !r.2.2 && !r.2.1
     then _delete_iam_stack_if_exists c iam_stack_status
     else [])

/-- The per-stack condition under which the teardown loop — before any
deletion happened (`deleted_any` still false) — reaches the deletion
branch for a candidate.  With `deleted_any = False` the skip
conditions of the loop are per-stack, so the first stack satisfying this predicate is
the first deletion candidate of the pass. -/
def isFirstPassDeletionCandidate (c : CloudFormation)
    (deprecated_only : Bool) (st : ListedStack) : Bool :=
  matchesBaseStackPattern st.StackName
    && st.ParentId == ""
    && (!deprecated_only
        || !(( _get_valid_stack_names c.toStackProperties).contains
              st.StackName))
    && st.StackStatus != "DELETE_COMPLETE"

/-- First stack of the listing that the teardown pass will try to
delete. -/
def firstDeletionCandidate (c : CloudFormation) (deprecated_only : Bool)
    (stackList : List ListedStack) : Option ListedStack :=
  stackList.find? (isFirstPassDeletionCandidate c deprecated_only)

/-- Embeds `CloudFormation._wait_change_set`: one change-set waiter invocation.
Both `StackName` and `ChangeSetName` of the wait request are the
stack name of the instance. -/
def _wait_change_set (c : CloudFormation) (env : CfnEnv) :
    List Action × Except CfnErr Unit :=
  ([.waitChangeSet (cfStackName c) (cfStackName c)],
   match env.change_set_wait_failure with
   | none => .ok ()
   | some (st, rs) => .error (.waiterError st rs))

/-- The bounded polling of `_wait_until_change_set_is_deleted`
(tenacity: retry on `WaitException`, stop after 20 attempts): `fuel`
attempts remain, `k` is the current attempt index; returns the describe
calls issued and whether deletion was confirmed. -/
def _wait_until_change_set_is_deleted_go (n : String) (still : Nat → Bool) :
    Nat → Nat → List Action × Bool
  | 0, _ => ([], false)
  | fuel + 1, k =>
    if still k then
      let r := _wait_until_change_set_is_deleted_go n still fuel (k + 1)
      (.describeChangeSet n n :: r.1, r.2)
    else ([.describeChangeSet n n], true)

/-- Embeds `CloudFormation._wait_until_change_set_is_deleted` (20 attempts). -/
def _wait_until_change_set_is_deleted (c : CloudFormation) (env : CfnEnv) :
    List Action × Bool :=
  _wait_until_change_set_is_deleted_go (cfStackName c)
    env.change_set_still_exists 20 0

/-- Embeds `CloudFormation._clean_up_when_required`. -/
def _clean_up_when_required (c : CloudFormation) (env : CfnEnv) :
    List Action × Except CfnErr Unit :=
  match env.stack_status with
  | none => ([], .ok ())
  | some s =>
    if s = "" then
      -- Python truthiness: a falsy status behaves like no stack found
      ([], .ok ())
    else if clean_before_create_update_states.contains s then
      (delete_stack c (cfStackName c) true, .ok ())
    else
      let n := cfStackName c
      if env.change_set_exists then
        let w := _wait_until_change_set_is_deleted c env
        ([.describeChangeSet n n, .deleteChangeSet n n] ++ w.1,
         if w.2 then .ok () else .error .waitTimeout)
      else ([.describeChangeSet n n], .ok ())

/-- The `change_set_params` request dictionary built by
`_create_change_set`. -/
structure CreateChangeSetParams where
  StackName : String
  TemplateURL : String
  Parameters : List String
  Capabilities : List String
  Tags : List (String × String)
  ChangeSetName : String
  ChangeSetType : String
  RoleARN : Option String
deriving Repr, DecidableEq

/-- The request dictionary of the describe / delete / execute change-set
calls. -/
structure ChangeSetCallParams where
  ChangeSetName : String
  StackName : String
deriving Repr, DecidableEq

/-- Embeds `change_set_params` as assembled at lines 370–390 of the source. -/
def change_set_params (c : CloudFormation) (env : CfnEnv)
    (templateUrl : String) : CreateChangeSetParams :=
  ⟨cfStackName c,
   templateUrl,
   (match c.parameters with
    | some ps => ps
    | none => env.s3_parameters),
   ["CAPABILITY_NAMED_IAM", "CAPABILITY_AUTO_EXPAND"],
   [("createdBy", "ADF")],
   cfStackName c,
   _get_change_set_type env.stack_status,
   c.role_arn⟩

/-- Request of `_describe_change_set`. -/
def _describe_change_set_params (c : CloudFormation) : ChangeSetCallParams :=
  ⟨cfStackName c, cfStackName c⟩

/-- Request of `_delete_change_set`. -/
def _delete_change_set_params (c : CloudFormation) : ChangeSetCallParams :=
  ⟨cfStackName c, cfStackName c⟩

/-- Request of `_execute_change_set`. -/
def _execute_change_set_params (c : CloudFormation) : ChangeSetCallParams :=
  ⟨cfStackName c, cfStackName c⟩

/-- Embeds `self.template_url = self.template_url if ... is not None else
self.get_template_url()`. -/
def resolved_template_url (c : CloudFormation) (env : CfnEnv) :
    Option String :=
  match c.template_url_arg with
  | some t => some t
  | none => env.s3_template_url

/-- Embeds `CloudFormation._create_change_set`: trace of issued calls and the
returned Boolean (`Except.error` models a raised exception). -/
def _create_change_set (c : CloudFormation) (env : CfnEnv) :
    List Action × Except CfnErr Bool :=
  match resolved_template_url c env with
  | none => ([], .ok false)
  | some u =>
    if u = "" then
      -- falsy template url: skip, nothing staged
      ([], .ok false)
    else
      let n := cfStackName c
      if env.validate_fails then
        ([.validateTemplate u], .error (.invalidTemplate u))
      else
        let params := change_set_params c env u
        let cu := _clean_up_when_required c env
        match cu.2 with
        | .error e => ([.validateTemplate u] ++ cu.1, .error e)
        | .ok _ =>
          let createAct :=
            Action.createChangeSet params.StackName params.ChangeSetName
              params.ChangeSetType
          if env.create_call_fails then
            ([.validateTemplate u] ++ cu.1 ++ [createAct, .deleteChangeSet n n],
             .error .genericAccountConfigure)
          else
            let w := _wait_change_set c env
            match w.2 with
            | .ok _ =>
              ([.validateTemplate u] ++ cu.1 ++ [createAct] ++ w.1, .ok true)
            | .error (.waiterError st rs) =>
              if _change_set_failed_due_to_empty st rs then
                ([.validateTemplate u] ++ cu.1 ++ [createAct] ++ w.1
                   ++ [.deleteChangeSet n n],
                 .ok false)
              else
                ([.validateTemplate u] ++ cu.1 ++ [createAct] ++ w.1
                   ++ [.deleteChangeSet n n],
                 .error (.waiterError st rs))
            | .error e =>
              ([.validateTemplate u] ++ cu.1 ++ [createAct] ++ w.1
                 ++ [.deleteChangeSet n n],
               .error e)

/-- Lookup in the `in_progress_state_waiters` dict. -/
def lookupWaiter (status : String) : Option String :=
  (in_progress_state_waiters.find? (fun kv => kv.1 == status)).map
    (fun kv => kv.2)

/-- Embeds `CloudFormation._wait_if_in_progress`. -/
def _wait_if_in_progress (c : CloudFormation) (env : CfnEnv) :
    List Action × Except CfnErr Unit :=
  match env.initial_status with
  | none => ([], .ok ())
  | some s =>
    match lookupWaiter s with
    | none => ([], .ok ())
    | some waiter_type =>
      if containsSubstr waiter_type "change_set" then
        _wait_change_set c env
      else
        ([.waitStack waiter_type (cfStackName c)],
         if env.in_progress_wait_fails then .error .clientError else .ok ())

/-- Embeds `CloudFormation._update_stack_termination_protection`: the update
call is issued with the flag derived from the environment variable; a
`ClientError` is logged and swallowed, so the operation always
succeeds. -/
def _update_stack_termination_protection (c : CloudFormation)
    (env : CfnEnv) : List Action × Except CfnErr Unit :=
  let call : List Action × Except CfnErr Unit :=
    ([.updateTerminationProtection (cfStackName c)
        (terminationProtectionEnabled env.termination_protection_var)],
     if env.termination_protection_update_fails
     then .error .clientError else .ok ())
  (call.1,
   match call.2 with
   | .error _ => .ok ()   -- except ClientError: logged, swallowed
   | .ok _ => .ok ())

/-- Embeds `CloudFormation._execute_change_set(waiter)`. -/
def _execute_change_set (c : CloudFormation) (env : CfnEnv)
    (waiter : String) : List Action × Except CfnErr Unit :=
  ([.executeChangeSet ( _execute_change_set_params c).StackName
      ( _execute_change_set_params c).ChangeSetName] ++
     (if c.wait then [.waitStack waiter (cfStackName c)] else []),
   if c.wait && env.execute_wait_fails then .error .clientError else .ok ())

/-- Embeds `CloudFormation.create_stack`. -/
def create_stack (c : CloudFormation) (env : CfnEnv) :
    List Action × Except CfnErr Unit :=
  let w := _wait_if_in_progress c env
  match w.2 with
  | .error e => (w.1, .error e)
  | .ok _ =>
    let waiter := _get_waiter_type env.stack_status
    let cs := _create_change_set c env
    match cs.2 with
    | .error e => (w.1 ++ cs.1, .error e)
    | .ok false => (w.1 ++ cs.1, .ok ())
    | .ok true =>
      let ex := _execute_change_set c env waiter
      match ex.2 with
      | .error e => (w.1 ++ cs.1 ++ ex.1, .error e)
      | .ok _ =>
        let tp := _update_stack_termination_protection c env
        (w.1 ++ cs.1 ++ ex.1 ++ tp.1, .ok ())

/-- The `(StackName, ChangeSetName)` pair carried by a change-set scoped
service call, when the action is one. -/
def changeSetRef (a : Action) : Option (String × String) :=
  match a with
  | .createChangeSet s cs _ => some (s, cs)
  | .describeChangeSet s cs => some (s, cs)
  | .deleteChangeSet s cs => some (s, cs)
  | .executeChangeSet s cs => some (s, cs)
  | .waitChangeSet s cs => some (s, cs)
  | _ => none

/-- Whether an action is a stack deletion request. -/
def isDeleteStackAction (a : Action) : Bool :=
  match a with
  | .deleteStack _ => true
  | _ => false

/-! ## Helper lemmas -/

theorem cfnSubUnaccepted_all_accepted (s : String) :
    (cfnSubUnaccepted s).data.all isCfnAcceptedChar = true := by
  simp only [cfnSubUnaccepted, List.all_eq_true]
  intro c hc
  rcases List.mem_map.mp hc with ⟨c0, _, rfl⟩
  by_cases h : isCfnAcceptedChar c0 = true
  · rw [if_pos h]
    exact h
  · rw [if_neg h]
    decide

theorem contains_clean_before_iff (s : String) :
    clean_before_create_update_states.contains s = true ↔
      (s = "CREATE_FAILED" ∨ s = "ROLLBACK_FAILED" ∨ s = "ROLLBACK_COMPLETE"
        ∨ s = "DELETE_FAILED" ∨ s = "REVIEW_IN_PROGRESS") := by
  simp [clean_before_create_update_states]

/-! ## Claim theorems -/

/-- C2: the resolved change-set operation type (`_get_change_set_type`) is
CREATE exactly when the current remote status is Missing (`none`) or one
of CREATE_FAILED, ROLLBACK_FAILED, ROLLBACK_COMPLETE, DELETE_FAILED,
REVIEW_IN_PROGRESS; for every other status it is UPDATE. -/
theorem claim_C2_change_set_type (status : Option String) :
    _get_change_set_type status =
      (if status = none
          ∨ status = some "CREATE_FAILED"
          ∨ status = some "ROLLBACK_FAILED"
          ∨ status = some "ROLLBACK_COMPLETE"
          ∨ status = some "DELETE_FAILED"
          ∨ status = some "REVIEW_IN_PROGRESS"
       then "CREATE" else "UPDATE") := by
  cases status with
  | none => simp [_get_change_set_type]
  | some s =>
    by_cases hd : (s = "CREATE_FAILED" ∨ s = "ROLLBACK_FAILED"
        ∨ s = "ROLLBACK_COMPLETE" ∨ s = "DELETE_FAILED"
        ∨ s = "REVIEW_IN_PROGRESS")
    · have hc := (contains_clean_before_iff s).mpr hd
      have hrhs : (some s = (none : Option String)
          ∨ some s = some "CREATE_FAILED" ∨ some s = some "ROLLBACK_FAILED"
          ∨ some s = some "ROLLBACK_COMPLETE" ∨ some s = some "DELETE_FAILED"
          ∨ some s = some "REVIEW_IN_PROGRESS") := by
        rcases hd with h | h | h | h | h <;> subst h <;> simp
      rw [if_pos hrhs]
      simp only [_get_change_set_type, hc, if_true]
    · have hc : clean_before_create_update_states.contains s = false := by
        cases hx : clean_before_create_update_states.contains s
        · rfl
        · exact absurd ((contains_clean_before_iff s).mp hx) hd
      have hrhs : ¬ (some s = (none : Option String)
          ∨ some s = some "CREATE_FAILED" ∨ some s = some "ROLLBACK_FAILED"
          ∨ some s = some "ROLLBACK_COMPLETE" ∨ some s = some "DELETE_FAILED"
          ∨ some s = some "REVIEW_IN_PROGRESS") := by
        intro hcon
        apply hd
        simpa using hcon
      rw [if_neg hrhs]
      simp only [_get_change_set_type, hc, Bool.false_eq_true, if_false]

/-- C5: the status read operation `_get_stack_status` maps a service
error whose code is `ValidationError` (stack not found) to the Missing
value (`none`) rather than raising, and re-raises every other service
error to the caller. -/
theorem claim_C5_status_error_mapping (code message : String) :
    ( _get_stack_status (.err code message) = .ok none ↔
        code = "ValidationError")
    ∧ (code ≠ "ValidationError" →
        _get_stack_status (.err code message) = .error code) := by
  constructor
  · constructor
    · intro h
      by_contra hne
      simp [_get_stack_status, hne] at h
    · intro h
      simp [_get_stack_status, h]
  · intro h
    simp [_get_stack_status, h]

/-- Witness for C5: a `ValidationError`-coded failure yields Missing; a
different error code is re-raised. -/
theorem claim_C5_witness :
    _get_stack_status (.err "ValidationError" "Stack does not exist")
        = .ok none
    ∧ _get_stack_status (.err "AccessDenied" "denied")
        = .error "AccessDenied" := by
  refine ⟨(claim_C5_status_error_mapping "ValidationError"
      "Stack does not exist").1.mpr rfl,
    (claim_C5_status_error_mapping "AccessDenied" "denied").2 (by decide)⟩

/-- C7: the derived stack name equals the specification
`adf-<geo>-base-<suffix>` derivation (geo "global" iff the region is the
deployment-home region, suffix the last path segment when that segment is
"deployment" or "adf-build" and "bootstrap" otherwise, characters outside
`[A-Za-z0-9-]` replaced by `-`), the derivation is a function of
(region, home region, path) alone, and its output contains only
characters in `[A-Za-z0-9-]`. -/
theorem claim_C7_stack_name (region homeRegion path : String) :
    _get_stack_name ⟨region, homeRegion, none, some path⟩ =
      specBuildStackName region homeRegion path
    ∧ (( _get_stack_name ⟨region, homeRegion, none, some path⟩).data.all
        isCfnAcceptedChar) = true := by
  constructor
  · by_cases h : path = ""
    · subst h
      rfl
    · simp only [_get_stack_name, specBuildStackName, ou_name, h,
        if_false, if_neg, _get_geo_prefix, not_false_eq_true]
  · exact cfnSubUnaccepted_all_accepted _

/-- C3 counterexample: `UPDATE_IN_PROGRESS` is in
`clean_stack_status` (the safely-removable set), so teardown DOES issue a
delete for a stack whose update is in progress — refuting the claim that
a stack with an update in progress is never deleted. -/
theorem claim_C3_counterexample :
    clean_stack_status.contains "UPDATE_IN_PROGRESS" = true
    ∧ _delete_stack_or_instruct_user
        ⟨⟨"eu-west-1", "eu-west-1", none, none⟩, false, none, none, none⟩
        "adf-global-base-bootstrap" "UPDATE_IN_PROGRESS" false
      = [.deleteStack "adf-global-base-bootstrap"] := by
  exact ⟨by decide, rfl⟩

/-- C3 (amended): during fleet teardown, for every candidate stack whose
status is not in the safely-removable set `clean_stack_status`, no delete
is issued — it is only flagged for manual removal with its name and
blocking status; in particular a stack in `CREATE_IN_PROGRESS` (a status
outside the set) is never deleted. (The example in the original claim,
`UPDATE_IN_PROGRESS`, is in the safely-removable set and is deleted.) -/
theorem claim_C3_manual_removal (c : CloudFormation)
    (name status : String) (w : Bool)
    (h : clean_stack_status.contains status = false) :
    _delete_stack_or_instruct_user c name status w
        = [.manualRemoval name status]
    ∧ ∀ a ∈ _delete_stack_or_instruct_user c name status w,
        isDeleteStackAction a = false := by
  have hres : _delete_stack_or_instruct_user c name status w
      = [.manualRemoval name status] := by
    simp only [_delete_stack_or_instruct_user]
    rw [h]
    simp
  refine ⟨hres, ?_⟩
  intro a ha
  rw [hres] at ha
  simp only [List.mem_singleton] at ha
  subst ha
  rfl

/-- Witness for C3: a stack in `CREATE_IN_PROGRESS` is only flagged for
manual removal, never deleted. -/
theorem claim_C3_witness :
    clean_stack_status.contains "CREATE_IN_PROGRESS" = false
    ∧ _delete_stack_or_instruct_user
        ⟨⟨"eu-west-1", "eu-west-1", none, none⟩, false, none, none, none⟩
        "adf-global-base-bootstrap" "CREATE_IN_PROGRESS" true
      = [.manualRemoval "adf-global-base-bootstrap" "CREATE_IN_PROGRESS"] := by
  refine ⟨by decide, (claim_C3_manual_removal
    ⟨⟨"eu-west-1", "eu-west-1", none, none⟩, false, none, none, none⟩
    "adf-global-base-bootstrap" "CREATE_IN_PROGRESS" true (by decide)).1⟩

/-- A demonstration orchestrator instance: deployment-home region, path
derived stack name (`adf-global-base-bootstrap`). -/
def cfDemo : CloudFormation :=
  ⟨⟨"eu-west-1", "eu-west-1", none, some "banking/dev"⟩,
   false, none, none, none⟩

/-- An all-success environment: no stack yet, a template available, every
service interaction succeeding. -/
def envOk : CfnEnv :=
  ⟨none, none, false, some "https://s3/adf/global.yml", [], false, false,
   fun _ => false, false, none, false, false, none⟩

/-- Environment whose change-set wait fails with the full service
"empty diff" failure reason. -/
def envEmptyDiff : CfnEnv :=
  ⟨none, none, false, some "https://s3/adf/global.yml", [], false, false,
   fun _ => false, false,
   some ("FAILED",
     "The submitted information didn" ++ apos ++ "t contain changes."),
   false, false, none⟩

/-- Environment whose change-set wait fails with a reason containing the
short fragment from the claim but neither literal of the code. -/
def envShortReason : CfnEnv :=
  ⟨none, none, false, some "https://s3/adf/global.yml", [], false, false,
   fun _ => false, false,
   some ("FAILED", "Import didn" ++ apos ++ "t contain changes here"),
   false, false, none⟩

/-- C1 counterexample: a change-set wait failure with status FAILED whose
reason contains “didn’t contain changes” — but not the full source
literal “The submitted information didn’t contain changes.” — IS
re-raised by `_create_change_set` instead of returning the no-op result,
refuting the claim as stated. -/
theorem claim_C1_counterexample :
    containsSubstr ("Import didn" ++ apos ++ "t contain changes here")
        ("didn" ++ apos ++ "t contain changes") = true
    ∧ ( _create_change_set cfDemo envShortReason).2
        = .error (.waiterError "FAILED"
            ("Import didn" ++ apos ++ "t contain changes here")) := by
  exact ⟨by decide, rfl⟩

/-- C1 (amended): for every change-set creation attempt in which the wait
on change-set completion fails with a last response whose Status is
“FAILED” and whose StatusReason contains the full literal “The submitted
information didn’t contain changes.” or contains “No updates are to be
performed”, `_create_change_set` never raises: it deletes the failed
change-set and returns the no-op result `false`; for every other
change-set wait failure it deletes the change-set and re-raises the
error. -/
theorem claim_C1_empty_change_set (c : CloudFormation) (env : CfnEnv)
    (u st rs : String)
    (hu : resolved_template_url c env = some u) (hne : u ≠ "")
    (hv : env.validate_fails = false)
    (hcu : ( _clean_up_when_required c env).2 = .ok ())
    (hcc : env.create_call_fails = false)
    (hw : env.change_set_wait_failure = some (st, rs)) :
    ((st = "FAILED" ∧
        (containsSubstr rs ("The submitted information didn" ++ apos
            ++ "t contain changes.") = true
          ∨ containsSubstr rs "No updates are to be performed" = true)) →
      ( _create_change_set c env).2 = .ok false)
    ∧ ( _change_set_failed_due_to_empty st rs = false →
        ( _create_change_set c env).2 = .error (.waiterError st rs))
    ∧ ( _create_change_set c env).1.getLast?
        = some (.deleteChangeSet (cfStackName c) (cfStackName c)) := by
  have hred : _create_change_set c env =
      (([.validateTemplate u] ++ ( _clean_up_when_required c env).1
          ++ [.createChangeSet (cfStackName c) (cfStackName c)
                ( _get_change_set_type env.stack_status)]
          ++ ( _wait_change_set c env).1
          ++ [.deleteChangeSet (cfStackName c) (cfStackName c)]),
        if _change_set_failed_due_to_empty st rs then .ok false
        else .error (.waiterError st rs)) := by
    simp only [ _create_change_set, hu, hv, hcu, hcc, hw, hne,
      _wait_change_set, change_set_params, Bool.false_eq_true, if_false,
      ↓reduceIte]
    cases hb : _change_set_failed_due_to_empty st rs <;> simp [hb]
  refine ⟨?_, ?_, ?_⟩
  · rintro ⟨hst, hor⟩
    have hb : _change_set_failed_due_to_empty st rs = true := by
      subst hst
      rcases hor with h | h <;>
        simp [ _change_set_failed_due_to_empty, h]
    rw [hred, hb]
    rfl
  · intro hb
    rw [hred, hb]
    rfl
  · rw [hred]
    exact List.getLast?_concat _

/-- Witness for C1: the full-literal empty-diff failure yields the no-op
result `false` without raising, and the trace ends by deleting the failed
change-set. -/
theorem claim_C1_witness :
    ( _create_change_set cfDemo envEmptyDiff).2 = .ok false
    ∧ ( _create_change_set cfDemo envEmptyDiff).1.getLast?
        = some (.deleteChangeSet (cfStackName cfDemo)
            (cfStackName cfDemo)) := by
  refine ⟨(claim_C1_empty_change_set cfDemo envEmptyDiff
      "https://s3/adf/global.yml" "FAILED"
      ("The submitted information didn" ++ apos ++ "t contain changes.")
      rfl (by decide) rfl rfl rfl rfl).1 ⟨rfl, Or.inl (by decide)⟩,
    (claim_C1_empty_change_set cfDemo envEmptyDiff
      "https://s3/adf/global.yml" "FAILED"
      ("The submitted information didn" ++ apos ++ "t contain changes.")
      rfl (by decide) rfl rfl rfl rfl).2.2⟩

theorem wait_go_bounded (n : String) (still : Nat → Bool) :
    ∀ fuel k,
      ( _wait_until_change_set_is_deleted_go n still fuel k).1.length ≤ fuel
      ∧ ∀ a ∈ ( _wait_until_change_set_is_deleted_go n still fuel k).1,
          a = .describeChangeSet n n := by
  intro fuel
  induction fuel with
  | zero =>
    intro k
    simp [ _wait_until_change_set_is_deleted_go]
  | succ f ih =>
    intro k
    by_cases h : still k = true
    · constructor
      · simp only [ _wait_until_change_set_is_deleted_go, h, if_true,
          List.length_cons]
        exact Nat.succ_le_succ (ih (k + 1)).1
      · intro a ha
        simp only [ _wait_until_change_set_is_deleted_go, h, if_true,
          List.mem_cons] at ha
        rcases ha with rfl | ha
        · rfl
        · exact (ih (k + 1)).2 a ha
    · have h' : still k = false := by simpa using h
      constructor
      · simp only [ _wait_until_change_set_is_deleted_go, h',
          Bool.false_eq_true, if_false, List.length_singleton]
        omega
      · intro a ha
        simp only [ _wait_until_change_set_is_deleted_go, h',
          Bool.false_eq_true, if_false, List.mem_singleton] at ha
        subst ha
        rfl

theorem cleanup_reduces (c : CloudFormation) (env : CfnEnv) (s : String)
    (hs : env.stack_status = some s) (hsne : s ≠ "")
    (hclean : clean_before_create_update_states.contains s = false)
    (hex : env.change_set_exists = true) :
    _clean_up_when_required c env =
      ([.describeChangeSet (cfStackName c) (cfStackName c),
        .deleteChangeSet (cfStackName c) (cfStackName c)]
          ++ ( _wait_until_change_set_is_deleted c env).1,
       if ( _wait_until_change_set_is_deleted c env).2 then .ok ()
       else .error .waitTimeout) := by
  simp only [ _clean_up_when_required, hs, hsne, hclean, hex,
    Bool.false_eq_true, if_false, if_true, ite_false, ite_true]

theorem create_change_set_trace_shape (c : CloudFormation) (env : CfnEnv)
    (u : String) (hu : resolved_template_url c env = some u) (hne : u ≠ "")
    (hv : env.validate_fails = false)
    (hcu2 : ( _clean_up_when_required c env).2 = .ok ()) :
    ∃ suffix, ( _create_change_set c env).1 =
      [.validateTemplate u] ++ ( _clean_up_when_required c env).1
        ++ [.createChangeSet (cfStackName c) (cfStackName c)
              ( _get_change_set_type env.stack_status)] ++ suffix := by
  by_cases hcc : env.create_call_fails = true
  · refine ⟨[.deleteChangeSet (cfStackName c) (cfStackName c)], ?_⟩
    simp [ _create_change_set, hu, hne, hv, hcu2, hcc, change_set_params]
  · have hcc' : env.create_call_fails = false := by simpa using hcc
    rcases hwf : env.change_set_wait_failure with _ | ⟨st, rs⟩
    · refine ⟨( _wait_change_set c env).1, ?_⟩
      simp [ _create_change_set, hu, hne, hv, hcu2, hcc', hwf,
        change_set_params, _wait_change_set]
    · cases hb : _change_set_failed_due_to_empty st rs
      · refine ⟨( _wait_change_set c env).1
          ++ [.deleteChangeSet (cfStackName c) (cfStackName c)], ?_⟩
        simp [ _create_change_set, hu, hne, hv, hcu2, hcc', hwf, hb,
          change_set_params, _wait_change_set]
      · refine ⟨( _wait_change_set c env).1
          ++ [.deleteChangeSet (cfStackName c) (cfStackName c)], ?_⟩
        simp [ _create_change_set, hu, hne, hv, hcu2, hcc', hwf, hb,
          change_set_params, _wait_change_set]

/-- C6: at most one change-set per stack name: when the stage step runs
against an existing stack (status not in the must-recreate set) for which
a change-set under the name of the stack already exists, the old
change-set delete is issued and its deletion confirmed by polling — bounded at 20
attempts — before the new change-set creation request, so the delete of
the old change-set precedes the create of the new one in the call
trace. -/
theorem claim_C6_stale_change_set_deleted_first (c : CloudFormation)
    (env : CfnEnv) (u s : String)
    (hu : resolved_template_url c env = some u) (hne : u ≠ "")
    (hv : env.validate_fails = false)
    (hs : env.stack_status = some s) (hsne : s ≠ "")
    (hclean : clean_before_create_update_states.contains s = false)
    (hex : env.change_set_exists = true)
    (hdel : ( _wait_until_change_set_is_deleted c env).2 = true) :
    ∃ polls suffix,
      ( _create_change_set c env).1 =
        [.validateTemplate u,
         .describeChangeSet (cfStackName c) (cfStackName c),
         .deleteChangeSet (cfStackName c) (cfStackName c)] ++ polls
          ++ [.createChangeSet (cfStackName c) (cfStackName c)
                ( _get_change_set_type env.stack_status)] ++ suffix
      ∧ polls.length ≤ 20
      ∧ ∀ a ∈ polls,
          a = .describeChangeSet (cfStackName c) (cfStackName c) := by
  have hcu := cleanup_reduces c env s hs hsne hclean hex
  have hcu1 : ( _clean_up_when_required c env).1 =
      [.describeChangeSet (cfStackName c) (cfStackName c),
       .deleteChangeSet (cfStackName c) (cfStackName c)]
        ++ ( _wait_until_change_set_is_deleted c env).1 := by
    rw [hcu]
  have hcu2 : ( _clean_up_when_required c env).2 = .ok () := by
    rw [hcu]
    simp [hdel]
  obtain ⟨suffix, htr⟩ :=
    create_change_set_trace_shape c env u hu hne hv hcu2
  refine ⟨( _wait_until_change_set_is_deleted c env).1, suffix, ?_, ?_, ?_⟩
  · rw [htr, hcu1]
    simp
  · simpa [ _wait_until_change_set_is_deleted] using
      (wait_go_bounded (cfStackName c) env.change_set_still_exists 20 0).1
  · simpa [ _wait_until_change_set_is_deleted] using
      (wait_go_bounded (cfStackName c) env.change_set_still_exists 20 0).2

/-- Environment with an existing stack in CREATE_COMPLETE and a stale
change-set that is still listed at the first deletion-confirmation poll
and gone at the second. -/
def envStale : CfnEnv :=
  ⟨none, some "CREATE_COMPLETE", false, some "https://s3/adf/global.yml",
   [], false, true, fun k => k == 0, false, none, false, false, none⟩

/-- Witness for C6: the stale change-set is deleted, deletion is
confirmed within the 20-poll bound, and only then is the new change-set
created. -/
theorem claim_C6_witness :
    ∃ polls suffix,
      ( _create_change_set cfDemo envStale).1 =
        [.validateTemplate "https://s3/adf/global.yml",
         .describeChangeSet (cfStackName cfDemo) (cfStackName cfDemo),
         .deleteChangeSet (cfStackName cfDemo) (cfStackName cfDemo)]
          ++ polls
          ++ [.createChangeSet (cfStackName cfDemo) (cfStackName cfDemo)
                ( _get_change_set_type envStale.stack_status)] ++ suffix
      ∧ polls.length ≤ 20
      ∧ ∀ a ∈ polls,
          a = .describeChangeSet (cfStackName cfDemo) (cfStackName cfDemo) :=
  claim_C6_stale_change_set_deleted_first cfDemo envStale
    "https://s3/adf/global.yml" "CREATE_COMPLETE" rfl (by decide) rfl rfl
    (by decide) (by decide) rfl rfl

theorem create_stack_trace_head (c : CloudFormation) (env : CfnEnv) :
    ∃ t, (create_stack c env).1 = ( _wait_if_in_progress c env).1 ++ t := by
  rcases hw2 : ( _wait_if_in_progress c env).2 with e | v
  · exact ⟨[], by simp [create_stack, hw2]⟩
  · rcases hcs : ( _create_change_set c env).2 with e | b
    · exact ⟨( _create_change_set c env).1,
        by simp [create_stack, hw2, hcs]⟩
    · cases b
      · exact ⟨( _create_change_set c env).1,
          by simp [create_stack, hw2, hcs]⟩
      · rcases hex : ( _execute_change_set c env
            ( _get_waiter_type env.stack_status)).2 with e | v2
        · exact ⟨( _create_change_set c env).1
            ++ ( _execute_change_set c env
                  ( _get_waiter_type env.stack_status)).1,
            by simp [create_stack, hw2, hcs, hex]⟩
        · exact ⟨( _create_change_set c env).1
            ++ ( _execute_change_set c env
                  ( _get_waiter_type env.stack_status)).1
            ++ ( _update_stack_termination_protection c env).1,
            by simp [create_stack, hw2, hcs, hex]⟩

theorem wait_if_in_progress_trace (c : CloudFormation) (env : CfnEnv)
    (s w : String) (hs : env.initial_status = some s)
    (hw : lookupWaiter s = some w) :
    ( _wait_if_in_progress c env).1 =
      [if containsSubstr w "change_set"
       then Action.waitChangeSet (cfStackName c) (cfStackName c)
       else Action.waitStack w (cfStackName c)] := by
  simp only [ _wait_if_in_progress, hs, hw]
  by_cases h : containsSubstr w "change_set" = true
  · simp [h, _wait_change_set]
  · have h' : containsSubstr w "change_set" = false := by simpa using h
    simp [h']

/-- C8: for every create-or-update invocation on a stack whose status is
in the in-progress family, the orchestrator blocks on the waiter
associated with that status — the change-set waiter when the dict value
names a change-set waiter, the stack waiter otherwise — before any
change-set is created (every `createChangeSet` call sits strictly after
the head wait action); in particular UPDATE_IN_PROGRESS maps to the stack
waiter `stack_update_complete` and REVIEW_IN_PROGRESS to the change-set
waiter `change_set_create_complete`. -/
theorem claim_C8_wait_before_create (c : CloudFormation) (env : CfnEnv)
    (s w : String) (hs : env.initial_status = some s)
    (hw : lookupWaiter s = some w) :
    (∃ rest, (create_stack c env).1 =
        (if containsSubstr w "change_set"
         then Action.waitChangeSet (cfStackName c) (cfStackName c)
         else Action.waitStack w (cfStackName c)) :: rest)
    ∧ (∀ i sn cn ty, (create_stack c env).1.get? i
          = some (.createChangeSet sn cn ty) → 1 ≤ i)
    ∧ lookupWaiter "UPDATE_IN_PROGRESS" = some "stack_update_complete"
    ∧ lookupWaiter "REVIEW_IN_PROGRESS" = some "change_set_create_complete"
    ∧ containsSubstr "change_set_create_complete" "change_set" = true
    ∧ containsSubstr "stack_update_complete" "change_set" = false := by
  obtain ⟨t, ht⟩ := create_stack_trace_head c env
  have hwt := wait_if_in_progress_trace c env s w hs hw
  have hcons : (create_stack c env).1 =
      (if containsSubstr w "change_set"
       then Action.waitChangeSet (cfStackName c) (cfStackName c)
       else Action.waitStack w (cfStackName c)) :: t := by
    rw [ht, hwt]
    rfl
  refine ⟨⟨t, hcons⟩, ?_, by decide, by decide, by decide, by decide⟩
  intro i sn cn ty hi
  cases i with
  | zero =>
    exfalso
    rw [hcons] at hi
    by_cases hb : containsSubstr w "change_set" = true
    · rw [if_pos hb] at hi
      simp at hi
    · rw [if_neg hb] at hi
      simp at hi
  | succ n => omega

/-- Environment of a stack whose update is still in flight when the
orchestrator starts. -/
def envBusy : CfnEnv :=
  ⟨some "UPDATE_IN_PROGRESS", some "UPDATE_COMPLETE", false,
   some "https://s3/adf/global.yml", [], false, false, fun _ => false,
   false, none, false, false, none⟩

/-- Witness for C8: with the remote stack in UPDATE_IN_PROGRESS, the
trace starts with the `stack_update_complete` stack wait, and every
change-set creation comes strictly later. -/
theorem claim_C8_witness :
    (∃ rest, (create_stack cfDemo envBusy).1 =
        (if containsSubstr "stack_update_complete" "change_set"
         then Action.waitChangeSet (cfStackName cfDemo) (cfStackName cfDemo)
         else Action.waitStack "stack_update_complete" (cfStackName cfDemo))
          :: rest)
    ∧ ∀ i sn cn ty, (create_stack cfDemo envBusy).1.get? i
        = some (.createChangeSet sn cn ty) → 1 ≤ i := by
  have h := claim_C8_wait_before_create cfDemo envBusy
    "UPDATE_IN_PROGRESS" "stack_update_complete" rfl rfl
  exact ⟨h.1, h.2.1⟩

/-- C9: after every successful change-set execution the
termination-protection update is applied, with the protection flag true
exactly when the configuration string equals the literal "True" (any
other value, including absence, yields false), and a service error raised
by that update is swallowed: the update operation itself always returns
success and the create-or-update result is `ok` for every value of the
update-failure flag. -/
theorem claim_C9_termination_protection (c : CloudFormation) (env : CfnEnv)
    (hwp : ( _wait_if_in_progress c env).2 = .ok ())
    (hcs : ( _create_change_set c env).2 = .ok true)
    (hex : ( _execute_change_set c env
        ( _get_waiter_type env.stack_status)).2 = .ok ()) :
    (create_stack c env).2 = .ok ()
    ∧ ( _update_stack_termination_protection c env).2 = .ok ()
    ∧ (∃ pre mid, (create_stack c env).1 =
        pre ++ Action.executeChangeSet (cfStackName c) (cfStackName c)
          :: (mid ++ [Action.updateTerminationProtection (cfStackName c)
                (terminationProtectionEnabled
                  env.termination_protection_var)]))
    ∧ (∀ v, terminationProtectionEnabled v = true ↔ v = some "True") := by
  have htr : create_stack c env =
      (( _wait_if_in_progress c env).1 ++ ( _create_change_set c env).1
        ++ ( _execute_change_set c env
              ( _get_waiter_type env.stack_status)).1
        ++ ( _update_stack_termination_protection c env).1, .ok ()) := by
    simp only [create_stack, hwp, hcs, hex]
  refine ⟨by rw [htr], ?_, ?_, ?_⟩
  · simp only [ _update_stack_termination_protection]
    cases h : env.termination_protection_update_fails <;> simp [h]
  · refine ⟨( _wait_if_in_progress c env).1
      ++ ( _create_change_set c env).1,
      (if c.wait
       then [Action.waitStack ( _get_waiter_type env.stack_status)
              (cfStackName c)]
       else []), ?_⟩
    rw [htr]
    simp [ _execute_change_set, _execute_change_set_params,
      _update_stack_termination_protection]
  · intro v
    cases v with
    | none => simp [terminationProtectionEnabled]
    | some x => simp [terminationProtectionEnabled]

/-- Environment where the termination-protection variable is the literal
"True" and the protection update call fails with a service error. -/
def envProtect : CfnEnv :=
  ⟨none, none, false, some "https://s3/adf/global.yml", [], false, false,
   fun _ => false, false, none, false, true, some "True"⟩

/-- Witness for C9: even with the protection update failing, the
create-or-update run succeeds, the update operation reports success, and
the literal "True" enables protection. -/
theorem claim_C9_witness :
    (create_stack cfDemo envProtect).2 = .ok ()
    ∧ ( _update_stack_termination_protection cfDemo envProtect).2 = .ok ()
    ∧ terminationProtectionEnabled (some "True") = true := by
  have h := claim_C9_termination_protection cfDemo envProtect rfl rfl rfl
  exact ⟨h.1, h.2.1, (h.2.2.2 (some "True")).mpr rfl⟩

/-- An action either is not change-set scoped, or addresses the
change-set under stack name `n` and change-set name `n`. -/
def changeSetScopedToStackName (n : String) (a : Action) : Bool :=
  match changeSetRef a with
  | none => true
  | some (sn, cn) => sn == n && cn == n

theorem scoped_none (n : String) (a : Action)
    (h : changeSetRef a = none) :
    changeSetScopedToStackName n a = true := by
  simp [changeSetScopedToStackName, h]

theorem scoped_self_pair (n : String) (a : Action)
    (h : changeSetRef a = some (n, n)) :
    changeSetScopedToStackName n a = true := by
  simp [changeSetScopedToStackName, h]

theorem scoped_wait_go (n : String) (still : Nat → Bool) (fuel k : Nat) :
    ∀ a ∈ ( _wait_until_change_set_is_deleted_go n still fuel k).1,
      changeSetScopedToStackName n a = true := by
  intro a ha
  have h := (wait_go_bounded n still fuel k).2 a ha
  subst h
  exact scoped_self_pair n _ rfl

theorem scoped_delete_stack (c : CloudFormation) (nm : String) (w : Bool) :
    ∀ a ∈ delete_stack c nm w,
      changeSetScopedToStackName (cfStackName c) a = true := by
  intro a ha
  simp only [delete_stack, List.mem_append, List.mem_singleton] at ha
  rcases ha with rfl | ha
  · exact scoped_none _ _ rfl
  · cases hw : c.wait || w
    · rw [hw] at ha
      simp at ha
    · rw [hw] at ha
      simp only [if_true, List.mem_singleton] at ha
      subst ha
      exact scoped_none _ _ rfl

theorem scoped_cleanup (c : CloudFormation) (env : CfnEnv) :
    ∀ a ∈ ( _clean_up_when_required c env).1,
      changeSetScopedToStackName (cfStackName c) a = true := by
  intro a ha
  rcases hs : env.stack_status with _ | s
  · simp only [ _clean_up_when_required, hs, List.not_mem_nil] at ha
  · simp only [ _clean_up_when_required, hs] at ha
    by_cases h1 : s = ""
    · rw [if_pos h1] at ha
      simp at ha
    · rw [if_neg h1] at ha
      by_cases h2 : clean_before_create_update_states.contains s = true
      · rw [if_pos h2] at ha
        exact scoped_delete_stack c (cfStackName c) true a ha
      · rw [if_neg h2] at ha
        by_cases h3 : env.change_set_exists = true
        · rw [if_pos h3] at ha
          simp only [List.mem_append, List.mem_cons,
            List.not_mem_nil, or_false] at ha
          rcases ha with (rfl | rfl) | ha
          · exact scoped_self_pair _ _ rfl
          · exact scoped_self_pair _ _ rfl
          · exact scoped_wait_go (cfStackName c)
              env.change_set_still_exists 20 0 a ha
        · rw [if_neg h3] at ha
          simp only [List.mem_singleton] at ha
          subst ha
          exact scoped_self_pair _ _ rfl

theorem scoped_wait_change_set (c : CloudFormation) (env : CfnEnv) :
    ∀ a ∈ ( _wait_change_set c env).1,
      changeSetScopedToStackName (cfStackName c) a = true := by
  intro a ha
  simp only [ _wait_change_set, List.mem_singleton] at ha
  subst ha
  exact scoped_self_pair _ _ rfl

theorem scoped_create_change_set (c : CloudFormation) (env : CfnEnv) :
    ∀ a ∈ ( _create_change_set c env).1,
      changeSetScopedToStackName (cfStackName c) a = true := by
  intro a ha
  rcases hu : resolved_template_url c env with _ | u
  · simp only [ _create_change_set, hu, List.not_mem_nil] at ha
  · simp only [ _create_change_set, hu] at ha
    by_cases hne : u = ""
    · rw [if_pos hne] at ha
      simp at ha
    · rw [if_neg hne] at ha
      by_cases hv : env.validate_fails = true
      · rw [if_pos hv] at ha
        simp only [List.mem_singleton] at ha
        subst ha
        exact scoped_none _ _ rfl
      · rw [if_neg hv] at ha
        rcases hcu : ( _clean_up_when_required c env).2 with e | v
        · simp only [hcu, List.mem_append, List.mem_singleton] at ha
          rcases ha with rfl | ha
          · exact scoped_none _ _ rfl
          · exact scoped_cleanup c env a ha
        · simp only [hcu] at ha
          by_cases hcc : env.create_call_fails = true
          · rw [if_pos hcc] at ha
            simp only [change_set_params, List.mem_append, List.mem_cons,
              List.mem_singleton, List.not_mem_nil, or_false] at ha
            rcases ha with (rfl | ha) | rfl | rfl
            · exact scoped_none _ _ rfl
            · exact scoped_cleanup c env a ha
            · exact scoped_self_pair _ _ rfl
            · exact scoped_self_pair _ _ rfl
          · rw [if_neg hcc] at ha
            rcases hwf : env.change_set_wait_failure with _ | ⟨st, rs⟩
            · simp only [ _wait_change_set, hwf, change_set_params,
                List.mem_append, List.mem_cons, List.mem_singleton,
                List.not_mem_nil, or_false] at ha
              rcases ha with ((rfl | ha) | rfl) | rfl
              · exact scoped_none _ _ rfl
              · exact scoped_cleanup c env a ha
              · exact scoped_self_pair _ _ rfl
              · exact scoped_self_pair _ _ rfl
            · simp only [ _wait_change_set, hwf] at ha
              cases hb : _change_set_failed_due_to_empty st rs <;>
                rw [hb] at ha <;>
                simp only [Bool.false_eq_true, if_false, if_true,
                  change_set_params, List.mem_append, List.mem_cons,
                  List.mem_singleton, List.not_mem_nil, or_false] at ha <;>
                rcases ha with (((rfl | ha) | rfl) | rfl) | rfl
              · exact scoped_none _ _ rfl
              · exact scoped_cleanup c env a ha
              · exact scoped_self_pair _ _ rfl
              · exact scoped_self_pair _ _ rfl
              · exact scoped_self_pair _ _ rfl
              · exact scoped_none _ _ rfl
              · exact scoped_cleanup c env a ha
              · exact scoped_self_pair _ _ rfl
              · exact scoped_self_pair _ _ rfl
              · exact scoped_self_pair _ _ rfl

theorem scoped_wait_if_in_progress (c : CloudFormation) (env : CfnEnv) :
    ∀ a ∈ ( _wait_if_in_progress c env).1,
      changeSetScopedToStackName (cfStackName c) a = true := by
  intro a ha
  rcases hs : env.initial_status with _ | s
  · simp only [ _wait_if_in_progress, hs, List.not_mem_nil] at ha
  · simp only [ _wait_if_in_progress, hs] at ha
    rcases hw : lookupWaiter s with _ | w
    · simp only [hw, List.not_mem_nil] at ha
    · simp only [hw] at ha
      by_cases hcs : containsSubstr w "change_set" = true
      · rw [if_pos hcs] at ha
        exact scoped_wait_change_set c env a ha
      · rw [if_neg hcs] at ha
        simp only [List.mem_singleton] at ha
        subst ha
        exact scoped_none _ _ rfl

theorem scoped_execute (c : CloudFormation) (env : CfnEnv)
    (waiter : String) :
    ∀ a ∈ ( _execute_change_set c env waiter).1,
      changeSetScopedToStackName (cfStackName c) a = true := by
  intro a ha
  simp only [ _execute_change_set, _execute_change_set_params,
    List.mem_append, List.mem_singleton] at ha
  rcases ha with rfl | ha
  · exact scoped_self_pair _ _ rfl
  · cases hw : c.wait
    · rw [hw] at ha
      simp at ha
    · rw [hw] at ha
      simp only [if_true, List.mem_singleton] at ha
      subst ha
      exact scoped_none _ _ rfl

theorem scoped_update_protection (c : CloudFormation) (env : CfnEnv) :
    ∀ a ∈ ( _update_stack_termination_protection c env).1,
      changeSetScopedToStackName (cfStackName c) a = true := by
  intro a ha
  simp only [ _update_stack_termination_protection,
    List.mem_singleton] at ha
  subst ha
  exact scoped_none _ _ rfl

theorem scoped_create_stack (c : CloudFormation) (env : CfnEnv) :
    ∀ a ∈ (create_stack c env).1,
      changeSetScopedToStackName (cfStackName c) a = true := by
  intro a ha
  rcases hw2 : ( _wait_if_in_progress c env).2 with e | v
  · simp only [create_stack, hw2] at ha
    exact scoped_wait_if_in_progress c env a ha
  · simp only [create_stack, hw2] at ha
    rcases hcs : ( _create_change_set c env).2 with e | b
    · simp only [hcs, List.mem_append] at ha
      rcases ha with h | h
      · exact scoped_wait_if_in_progress c env a h
      · exact scoped_create_change_set c env a h
    · cases b
      · simp only [hcs, List.mem_append] at ha
        rcases ha with h | h
        · exact scoped_wait_if_in_progress c env a h
        · exact scoped_create_change_set c env a h
      · simp only [hcs] at ha
        rcases hex : ( _execute_change_set c env
            ( _get_waiter_type env.stack_status)).2 with e | v2
        · simp only [hex, List.mem_append] at ha
          rcases ha with (h | h) | h
          · exact scoped_wait_if_in_progress c env a h
          · exact scoped_create_change_set c env a h
          · exact scoped_execute c env _ a h
        · simp only [hex, List.mem_append] at ha
          rcases ha with ((h | h) | h) | h
          · exact scoped_wait_if_in_progress c env a h
          · exact scoped_create_change_set c env a h
          · exact scoped_execute c env _ a h
          · exact scoped_update_protection c env a h

/-- C10: every change-set operation request — create, describe, delete,
and execute — carries a `ChangeSetName` equal to the stack name of the
instance (and targets that same stack), and in every call trace of the
create-or-update operation every change-set scoped service call is
addressed by `(stack name, stack name)`. -/
theorem claim_C10_change_set_ops_use_stack_name (c : CloudFormation) :
    (∀ env u, (change_set_params c env u).ChangeSetName = cfStackName c
      ∧ (change_set_params c env u).StackName = cfStackName c)
    ∧ ( _describe_change_set_params c).ChangeSetName = cfStackName c
    ∧ ( _describe_change_set_params c).StackName = cfStackName c
    ∧ ( _delete_change_set_params c).ChangeSetName = cfStackName c
    ∧ ( _delete_change_set_params c).StackName = cfStackName c
    ∧ ( _execute_change_set_params c).ChangeSetName = cfStackName c
    ∧ ( _execute_change_set_params c).StackName = cfStackName c
    ∧ ∀ env a, a ∈ (create_stack c env).1 →
        ∀ sn cn, changeSetRef a = some (sn, cn) →
          sn = cfStackName c ∧ cn = cfStackName c := by
  refine ⟨fun env u => ⟨rfl, rfl⟩, rfl, rfl, rfl, rfl, rfl, rfl, ?_⟩
  intro env a ha sn cn href
  have hx := scoped_create_stack c env a ha
  simp only [changeSetScopedToStackName, href, Bool.and_eq_true,
    beq_iff_eq] at hx
  exact hx

/-- Witness for C10: in a concrete successful run, the staged change-set
creation call found in the trace is addressed by the own name of the stack for
both `StackName` and `ChangeSetName`. -/
theorem claim_C10_witness :
    (change_set_params cfDemo envOk "u").ChangeSetName = cfStackName cfDemo
    ∧ ∀ sn cn,
        changeSetRef (.createChangeSet "adf-global-base-bootstrap"
          "adf-global-base-bootstrap" "CREATE") = some (sn, cn) →
        sn = cfStackName cfDemo ∧ cn = cfStackName cfDemo := by
  have h := claim_C10_change_set_ops_use_stack_name cfDemo
  refine ⟨(h.1 envOk "u").1, ?_⟩
  intro sn cn href
  exact h.2.2.2.2.2.2.2 envOk
    (.createChangeSet "adf-global-base-bootstrap"
      "adf-global-base-bootstrap" "CREATE")
    (by decide) sn cn href

theorem loop_trace_indep_bsf (c : CloudFormation) (iam : Option String)
    (wo dep : Bool) :
    ∀ (l : List ListedStack) (da b1 b2 : Bool),
      ( _delete_base_stacks_loop c iam wo dep l da b1).1 =
      ( _delete_base_stacks_loop c iam wo dep l da b2).1 := by
  intro l
  induction l with
  | nil =>
    intro da b1 b2
    rfl
  | cons st rest ih =>
    intro da b1 b2
    unfold _delete_base_stacks_loop
    repeat' split
    all_goals try rfl
    all_goals try exact ih _ _ _
    all_goals simp only [ih true b1 b2]

theorem loop_skip_head (c : CloudFormation) (iam : Option String)
    (wo dep : Bool) (st : ListedStack) (rest : List ListedStack)
    (bsf : Bool)
    (h : isFirstPassDeletionCandidate c dep st = false) :
    ( _delete_base_stacks_loop c iam wo dep (st :: rest) false bsf).1 =
    ( _delete_base_stacks_loop c iam wo dep rest false bsf).1 := by
  cases h1 : matchesBaseStackPattern st.StackName
  · simp [ _delete_base_stacks_loop, h1]
  · cases h2 : st.ParentId == ""
    · have hp : (st.ParentId != "") = true := by simp [bne, h2]
      simp [ _delete_base_stacks_loop, h1, hp]
    · have hp : (st.ParentId != "") = false := by simp [bne, h2]
      cases h4 : (!dep
          || !(( _get_valid_stack_names c.toStackProperties).contains
                st.StackName))
      · simp only [ _delete_base_stacks_loop, h1, hp, Bool.not_true,
          Bool.false_eq_true, if_false, Bool.false_and, h4,
          Bool.not_false, if_true]
        exact loop_trace_indep_bsf c iam wo dep rest false _ bsf
      · cases h5 : st.StackStatus == "DELETE_COMPLETE"
        · exfalso
          have : isFirstPassDeletionCandidate c dep st = true := by
            simp only [isFirstPassDeletionCandidate, h1, h2, h4, bne, h5,
              Bool.not_false, Bool.true_and, Bool.and_true, Bool.and_self]
          rw [this] at h
          exact Bool.true_eq_false.mp h
        · simp only [ _delete_base_stacks_loop, h1, hp, Bool.not_true,
            Bool.false_eq_true, if_false, Bool.false_and, h4,
            Bool.not_false, h5, if_true]

theorem filter_delete_stack_trace (c : CloudFormation) (nm : String)
    (w : Bool) :
    (delete_stack c nm w).filter isDeleteStackAction
      = [.deleteStack nm] := by
  cases h : c.wait || w <;>
    simp [delete_stack, h, isDeleteStackAction]

theorem filter_delete_or_instruct (c : CloudFormation) (nm ss : String)
    (w : Bool) (h : clean_stack_status.contains ss = true) :
    ( _delete_stack_or_instruct_user c nm ss w).filter isDeleteStackAction
      = [.deleteStack nm] := by
  simp only [ _delete_stack_or_instruct_user]
  rw [if_pos h]
  exact filter_delete_stack_trace c nm w

theorem filter_delete_iam (c : CloudFormation) (s : String)
    (hsne : s ≠ "") (hcl : clean_stack_status.contains s = true) :
    ( _delete_iam_stack_if_exists c (some s)).filter isDeleteStackAction
      = [.deleteStack ADF_GLOBAL_IAM_STACK_NAME] := by
  simp only [ _delete_iam_stack_if_exists]
  rw [if_neg hsne]
  exact filter_delete_or_instruct c _ s true hcl

theorem loop_iam_before_first_deletion (c : CloudFormation)
    (iam : Option String) (wo dep : Bool) (s : String)
    (hiam : iam = some s) (hsne : s ≠ "")
    (hsclean : clean_stack_status.contains s = true)
    (hhome : c.region = c.deployment_account_region) :
    ∀ (l : List ListedStack) (bsf : Bool) (st : ListedStack),
      firstDeletionCandidate c dep l = some st →
      st.StackName ≠ ADF_GLOBAL_IAM_STACK_NAME →
      clean_stack_status.contains st.StackStatus = true →
      ∃ rest,
        (( _delete_base_stacks_loop c iam wo dep l false bsf).1.filter
          isDeleteStackAction)
          = .deleteStack ADF_GLOBAL_IAM_STACK_NAME
            :: .deleteStack st.StackName :: rest := by
  intro l
  induction l with
  | nil =>
    intro bsf st hfind hni hcl
    simp [firstDeletionCandidate] at hfind
  | cons hd tl ih =>
    intro bsf st hfind hni hcl
    by_cases hhd : isFirstPassDeletionCandidate c dep hd = true
    · have hst : st = hd := by
        have hh : firstDeletionCandidate c dep (hd :: tl) = some hd := by
          simp [firstDeletionCandidate, List.find?, hhd]
        rw [hh] at hfind
        exact (Option.some.inj hfind).symm
      subst hst
      have hconj := hhd
      simp only [isFirstPassDeletionCandidate, Bool.and_eq_true] at hconj
      obtain ⟨⟨⟨h1, h2⟩, h3⟩, h4⟩ := hconj
      have hp : (st.ParentId != "") = false := by simp [bne, h2]
      have h4' : (st.StackStatus == "DELETE_COMPLETE") = false := by
        simpa [bne] using h4
      have hh : (c.region == c.deployment_account_region) = true := by
        simp [hhome]
      have hbn : (st.StackName != ADF_GLOBAL_IAM_STACK_NAME) = true := by
        simp [bne, hni]
      have hstep :
          ( _delete_base_stacks_loop c iam wo dep (st :: tl) false bsf).1 =
          _delete_iam_stack_if_exists c iam
            ++ _delete_stack_or_instruct_user c st.StackName st.StackStatus
                wo
            ++ ( _delete_base_stacks_loop c iam wo dep tl true bsf).1 := by
        simp only [ _delete_base_stacks_loop, h1, hp, h3, h4', hh, hbn,
          Bool.not_true, Bool.not_false, Bool.false_and,
          Bool.false_eq_true, if_false, Bool.true_and, Bool.and_self,
          if_true, List.append_assoc]
      refine ⟨(( _delete_base_stacks_loop c iam wo dep tl true bsf).1.filter
        isDeleteStackAction), ?_⟩
      rw [hstep, List.filter_append, List.filter_append, hiam,
        filter_delete_iam c s hsne hsclean,
        filter_delete_or_instruct c _ _ wo hcl]
      rfl
    · have hhd' : isFirstPassDeletionCandidate c dep hd = false := by
        simpa using hhd
      have hfind' : firstDeletionCandidate c dep tl = some st := by
        simpa [firstDeletionCandidate, List.find?, hhd'] using hfind
      rw [loop_skip_head c iam wo dep hd tl bsf hhd']
      exact ih bsf st hfind' hni hcl

/-- C4: in every teardown pass, when the first stack reaching the
deletion branch is not the privileged IAM stack and the region equals the
deployment-home region, the privileged IAM stack (existing, in a
deletable status) is deleted before that first base-stack deletion: the
first two stack deletions of the pass are that of the IAM stack and then
that of the candidate, so over a family with a deprecated bootstrap stack and the
IAM stack, the IAM deletion precedes the bootstrap deletion and both
occur. -/
theorem claim_C4_iam_before_first_base_deletion (c : CloudFormation)
    (iam : Option String) (stackList : List ListedStack)
    (wo dep : Bool) (s : String) (st : ListedStack)
    (hhome : c.region = c.deployment_account_region)
    (hiam : iam = some s) (hsne : s ≠ "")
    (hsclean : clean_stack_status.contains s = true)
    (hfind : firstDeletionCandidate c dep stackList = some st)
    (hni : st.StackName ≠ ADF_GLOBAL_IAM_STACK_NAME)
    (hstclean : clean_stack_status.contains st.StackStatus = true) :
    (( _delete_base_stacks c iam stackList wo dep).filter
        isDeleteStackAction).take 2
      = [.deleteStack ADF_GLOBAL_IAM_STACK_NAME,
         .deleteStack st.StackName] := by
  obtain ⟨rest, hr⟩ := loop_iam_before_first_deletion c iam wo dep s hiam
    hsne hsclean hhome stackList false st hfind hni hstclean
  simp only [ _delete_base_stacks]
  rw [List.filter_append, hr]
  simp

/-- Teardown demo instance: home-region deployment account, current
valid path suffix "deployment". -/
def cfTear : CloudFormation :=
  ⟨⟨"eu-west-1", "eu-west-1", none, some "deployment"⟩,
   false, none, none, none⟩

/-- A family listing with one deprecated base stack (its name no longer
matches any currently valid stack name). -/
def familyDemo : List ListedStack :=
  [⟨"adf-global-base-banking", "CREATE_COMPLETE", ""⟩]

/-- Witness for C4: deprecated-only teardown over a family with a
deprecated base stack, the IAM stack existing in CREATE_COMPLETE: the
IAM stack deletion precedes the base stack deletion and both occur. -/
theorem claim_C4_witness :
    (( _delete_base_stacks cfTear (some "CREATE_COMPLETE") familyDemo
        true true).filter isDeleteStackAction).take 2
      = [.deleteStack ADF_GLOBAL_IAM_STACK_NAME,
         .deleteStack "adf-global-base-banking"] :=
  claim_C4_iam_before_first_base_deletion cfTear
    (some "CREATE_COMPLETE") familyDemo true true "CREATE_COMPLETE"
    ⟨"adf-global-base-banking", "CREATE_COMPLETE", ""⟩
    rfl rfl (by decide) (by decide) (by decide) (by decide) (by decide)

end ADF
